import Mathlib

/-!
Verification development for the YarnSpinner-Rust compiler and runtime.

The definitions below are a shallow embedding of the Rust source:

* `crates/core/src/types/type_util.rs` — the subtype relation;
* `crates/compiler/src/compilation_steps/add_initial_value_registrations.rs`
  — the final compilation pass;
* `crates/compiler/src/compilation_steps/add_tracking_declarations.rs`
  — synthesis of visit-tracking declarations;
* `crates/runtime/src/dialogue_option.rs` — dialogue options and option ids.

Rust `Option` becomes `Option`, `Result` becomes `Except`, hash maps become
association lists (all map access in the embedded code is keyed lookup, so
entry order is irrelevant), `HashSet` membership becomes list membership with
duplicate-free removal, and every panic path becomes an explicit
`Except.error` carrying the reason.  The `f32` payloads of values and
operands are carried as `Rat`: the embedded passes only move these numbers
around and compare them, never compute with them.
-/

namespace YarnSpinner

/-- Modelled from the spec: the closed type set
`String, Number, Boolean, Function(signature), Any, Undefined`.  The Rust
`Type` enum itself is not under `src/`; only `type_util.rs` is.  The payload
of `Function` is carried as an opaque signature identifier and the payload of
`Any` is dropped: no embedded operation inspects either, all that matters is
structural equality. -/
inductive Type' where
  | string
  | number
  | boolean
  | function (signature : Nat)
  | any
  | undefined
deriving DecidableEq, Repr

/-- Embedding of `is_sub_type_of` from `type_util.rs`.  The four match arms
appear in source order; the `unreachable!` arm for an `Undefined` parent
becomes `none`, and the final arm compares structurally exactly as Rust
`==` does on the `Type` enum. -/
def is_sub_type_of (self parent : Type') : Option Bool :=
  match self, parent with
  | _, .any => some true
  | .undefined, _ => some false
  | _, .undefined => none
  | a, b => some (decide (a = b))

end YarnSpinner

namespace YarnSpinner

/-- Decidable equality for `Except`, needed because the intermediate
compilation state stores `Option (Except CompilationError Compilation)`. -/
instance {ε α : Type} [DecidableEq ε] [DecidableEq α] : DecidableEq (Except ε α) := fun a b =>
  match a, b with
  | .error e, .error f =>
    if h : e = f then .isTrue (congrArg Except.error h)
    else .isFalse (fun hh => h (Except.error.inj hh))
  | .ok x, .ok y =>
    if h : x = y then .isTrue (congrArg Except.ok h)
    else .isFalse (fun hh => h (Except.ok.inj hh))
  | .error _, .ok _ => .isFalse (fun hh => Except.noConfusion hh)
  | .ok _, .error _ => .isFalse (fun hh => Except.noConfusion hh)

/-- Modelled from the spec: diagnostic severity `Error | Warning | Info`
(the `Diagnostic` type is not under `src/`). -/
inductive Severity where
  | error
  | warning
  | info
deriving DecidableEq, Repr

/-- Modelled from the spec: a diagnostic has a severity, a message and an
optional source position (here a line/column pair).  Structural equality on
this record is the equality the deduplication pass uses. -/
structure Diagnostic where
  message : String
  severity : Severity
  position : Option (Nat × Nat)
deriving DecidableEq, Repr

/-- Embedding of `Diagnostic::from_message`, which the final pass uses to
report a missing default value: per the spec such a finding is an `Error`
severity diagnostic, with no source position attached. -/
def Diagnostic.from_message (message : String) : Diagnostic :=
  { message := message, severity := .error, position := none }

/-- Modelled from the spec: the untyped runtime value a declaration's
default value is stored as (the Rust `YarnValue` is not under `src/`).
The numeric payload is carried as `Rat` in place of `f32`; the embedded
code only stores and compares it. -/
inductive Value where
  | string (s : String)
  | number (n : Rat)
  | boolean (b : Bool)
deriving DecidableEq, Repr

/-- Modelled from the spec: a bytecode-level literal operand, one of the
three literal kinds `String, Number, Boolean` (the protobuf `Operand` type
is not under `src/`). -/
inductive Operand where
  | string_value (s : String)
  | float_value (n : Rat)
  | bool_value (b : Bool)
deriving DecidableEq, Repr

/-- Modelled from the spec: `String::try_from` on a value, succeeding
exactly when the value already is a string (a default value must be
convertible to its declaration's type; conversion elsewhere is a failure
the final pass unwraps). -/
def Value.try_string : Value → Option String
  | .string s => some s
  | _ => none

/-- Modelled from the spec: `f32::try_from` on a value. -/
def Value.try_number : Value → Option Rat
  | .number n => some n
  | _ => none

/-- Modelled from the spec: `bool::try_from` on a value. -/
def Value.try_boolean : Value → Option Bool
  | .boolean b => some b
  | _ => none

/-- Modelled from the spec: a variable declaration with a name, a declared
or inferred type (`none` when unresolved, the Rust field `r#type`), an
optional default value and a textual description.  The declaration source
tag is omitted: no embedded operation reads it. -/
structure Declaration where
  name : String
  type' : Option Type'
  default_value : Option Value
  description : String
deriving DecidableEq, Repr

/-- Embedding of `Declaration::default()`. -/
def Declaration.default : Declaration :=
  { name := "", type' := none, default_value := none, description := "" }

/-- Embedding of the `with_default_value` builder. -/
def Declaration.with_default_value (d : Declaration) (v : Value) : Declaration :=
  { d with default_value := some v }

/-- Embedding of the `with_name` builder. -/
def Declaration.with_name (d : Declaration) (n : String) : Declaration :=
  { d with name := n }

/-- Embedding of the `with_type` builder. -/
def Declaration.with_type (d : Declaration) (t : Type') : Declaration :=
  { d with type' := some t }

/-- Embedding of the `with_description` builder. -/
def Declaration.with_description (d : Declaration) (s : String) : Declaration :=
  { d with description := s }

/-- Modelled from the spec: the compiled program, carrying the
`initial_values` map from variable name to literal operand.  The node map,
headers and string table are omitted: the embedded final pass touches only
`initial_values`, and no claim mentions the rest.  The hash map becomes an
association list accessed purely through keyed insert and lookup. -/
structure Program where
  initial_values : List (String × Operand)
deriving DecidableEq, Repr

/-- Modelled from the spec: the finished compilation —
`program : Option Program`, accumulated diagnostics, and the declaration
list attached for downstream tooling.  The string table is omitted. -/
structure Compilation where
  program : Option Program
  diagnostics : List Diagnostic
  declarations : List Declaration
deriving DecidableEq, Repr

/-- Modelled from the spec: the payload of a failed compilation result.
No embedded operation inspects it. -/
structure CompilationError where
  diagnostics : List Diagnostic
deriving DecidableEq, Repr

/-- Modelled from the spec: the transient pipeline state threaded through
the passes, restricted to the fields the embedded passes read or write —
known declarations, derived (synthesized) declarations, the set of nodes
requiring visit tracking, accumulated diagnostics, and the in-progress
compilation result. -/
structure CompilationIntermediate where
  known_variable_declarations : List Declaration
  derived_variable_declarations : List Declaration
  tracking_nodes : List String
  diagnostics : List Diagnostic
  result : Option (Except CompilationError Compilation)
deriving DecidableEq, Repr

/-- Reasons the final pass can panic; each constructor is one `unwrap` or
`panic!` site of `add_initial_value_registrations.rs`. -/
inductive PassPanic where
  /-- `state.result.as_mut().unwrap()` with `result` absent. -/
  | resultMissing
  /-- `declaration.r#type.as_ref().unwrap()` with an unresolved type
  (unreachable behind the `is_some` filter). -/
  | typeMissing
  /-- a failed `try_from(default_value).unwrap()` conversion. -/
  | conversionFailed
  /-- the explicit `panic!` for a resolved type outside
  `String, Number, Boolean`. -/
  | unsupportedType
deriving DecidableEq, Repr

/-- Keyed insert into the `initial_values` map, with the overwrite
semantics of `HashMap::insert`. -/
def map_insert (key : String) (value : Operand) (m : List (String × Operand)) :
    List (String × Operand) :=
  (key, value) :: m.filter (fun p => decide (p.1 ≠ key))

/-- Keyed lookup in the `initial_values` map. -/
def map_lookup (key : String) : List (String × Operand) → Option Operand
  | [] => none
  | p :: rest => if p.1 = key then some p.2 else map_lookup key rest

/-- Modelled from the spec: `Option<Type>.format()`, used only to render
the type name inside the null-default-value diagnostic message. -/
def format_type : Option Type' → String
  | none => "undefined"
  | some .string => "String"
  | some .number => "Number"
  | some .boolean => "Boolean"
  | some (.function _) => "Function"
  | some .any => "Any"
  | some .undefined => "Undefined"

/-- The body of the `for declaration in declarations` loop of
`add_initial_value_registrations` (lines 22–40): a missing default value
pushes the null-default-value diagnostic and continues; otherwise, when a
program is present, the default value is converted per the declaration's
resolved type — `String`, `Number`, `Boolean` in source order, every other
type hitting the `panic!` arm — and inserted into `initial_values` under
the declaration's name. -/
def register_initial_value (declaration : Declaration) (compilation : Compilation) :
    Except PassPanic Compilation :=
  match declaration.default_value with
  | none =>
    .ok { compilation with
          diagnostics := compilation.diagnostics ++
            [Diagnostic.from_message
              ("Variable declaration " ++ declaration.name ++ " (type " ++
               format_type declaration.type' ++
               ") has a null default value. This is not allowed.")] }
  | some default_value =>
    match compilation.program with
    | none => .ok compilation
    | some program =>
      match declaration.type' with
      | none => .error .typeMissing
      | some .string =>
        match default_value.try_string with
        | none => .error .conversionFailed
        | some s =>
          .ok { compilation with
                program := some { program with
                  initial_values :=
                    map_insert declaration.name (.string_value s) program.initial_values } }
      | some .number =>
        match default_value.try_number with
        | none => .error .conversionFailed
        | some n =>
          .ok { compilation with
                program := some { program with
                  initial_values :=
                    map_insert declaration.name (.float_value n) program.initial_values } }
      | some .boolean =>
        match default_value.try_boolean with
        | none => .error .conversionFailed
        | some b =>
          .ok { compilation with
                program := some { program with
                  initial_values :=
                    map_insert declaration.name (.bool_value b) program.initial_values } }
      | some _ => .error .unsupportedType

/-- The whole registration loop: `register_initial_value` folded over the
filtered declaration list, short-circuiting at the first panic. -/
def register_all : List Declaration → Compilation → Except PassPanic Compilation
  | [], compilation => .ok compilation
  | d :: rest, compilation =>
    match register_initial_value d compilation with
    | .error e => .error e
    | .ok compilation => register_all rest compilation

/-- The declaration filter of lines 16–20: drop `Function`-typed
declarations, then drop declarations with an unresolved type. -/
def filtered_declarations (state : CompilationIntermediate) : List Declaration :=
  (state.known_variable_declarations.filter
      (fun decl => !(decl.type' matches some (.function _)))).filter
    (fun decl => decl.type'.isSome)

/-- The deduplication step of lines 42–53: `pool` is the `HashSet` built
from `state.diagnostics`; the compilation's diagnostics are walked in
order, keeping each entry still in the pool and then removing it from the
pool (removal deletes every structural duplicate, as set removal does). -/
def dedup_preserving_order : List Diagnostic → List Diagnostic → List Diagnostic
  | _, [] => []
  | pool, d :: rest =>
    if d ∈ pool then d :: dedup_preserving_order (pool.filter (fun x => decide (x ≠ d))) rest
    else dedup_preserving_order pool rest

/-- Embedding of `add_initial_value_registrations`
(`add_initial_value_registrations.rs`): a missing result is the `unwrap`
panic; an `Err` result returns the state unchanged; otherwise every
filtered known declaration is registered, `compilation.declarations` is
assigned from the derived declarations, and the diagnostics are
deduplicated against the pool built from `state.diagnostics`. -/
def add_initial_value_registrations (state : CompilationIntermediate) :
    Except PassPanic CompilationIntermediate :=
  match state.result with
  | none => .error .resultMissing
  | some (.error _) => .ok state
  | some (.ok compilation) =>
    match register_all (filtered_declarations state) compilation with
    | .error e => .error e
    | .ok compilation =>
      let compilation := { compilation with
        declarations := state.derived_variable_declarations }
      let compilation := { compilation with
        diagnostics := dedup_preserving_order state.diagnostics compilation.diagnostics }
      .ok { state with result := some (.ok compilation) }

/-- Modelled from the spec:
`Library::generate_unique_visited_variable_for_node` is not under `src/`;
the spec requires a name derived deterministically from the node name,
distinct for distinct nodes, realised as a fixed reserved prefix. -/
def generate_unique_visited_variable_for_node (node : String) : String :=
  "$Yarn.Internal.Visiting." ++ node

/-- The declaration built inside the `map` closure of
`add_tracking_declarations` (lines 11–19): `Declaration::default()` with
default value `0`, the generated name, type `Number`, and the
synthetic-origin description. -/
def tracking_declaration (node : String) : Declaration :=
  (((Declaration.default.with_default_value (.number 0)).with_name
      (generate_unique_visited_variable_for_node node)).with_type .number).with_description
    ("The generated variable for tracking visits of node " ++ node)

/-- Embedding of `add_tracking_declarations`
(`add_tracking_declarations.rs`): build one tracking declaration per
tracking node and extend both the known and the derived declaration
lists with them. -/
def add_tracking_declarations (state : CompilationIntermediate) :
    CompilationIntermediate :=
  let tracking_declarations := state.tracking_nodes.map tracking_declaration
  { state with
    known_variable_declarations :=
      state.known_variable_declarations ++ tracking_declarations
    derived_variable_declarations :=
      state.derived_variable_declarations ++ tracking_declarations }

/-- The successful compilation carried by a pass result, when any. -/
def final_compilation : Except PassPanic CompilationIntermediate → Option Compilation
  | .ok st =>
    match st.result with
    | some (.ok c) => some c
    | _ => none
  | .error _ => none

/-- The diagnostics of the successful compilation carried by a pass
result. -/
def final_diagnostics (r : Except PassPanic CompilationIntermediate) :
    Option (List Diagnostic) :=
  (final_compilation r).map (fun c => c.diagnostics)

/-- The declaration list of the successful compilation carried by a pass
result. -/
def final_declarations (r : Except PassPanic CompilationIntermediate) :
    Option (List Declaration) :=
  (final_compilation r).map (fun c => c.declarations)

/-- The registered initial value for a given variable name in the program
of the successful compilation carried by a pass result. -/
def final_initial_value (name : String) (r : Except PassPanic CompilationIntermediate) :
    Option Operand :=
  (final_compilation r).bind fun c =>
    c.program.bind fun p => map_lookup name p.initial_values

/-- Whether a pass result is a panic. -/
def is_panic : Except PassPanic CompilationIntermediate → Bool
  | .error _ => true
  | .ok _ => false

/-- The literal operand the final pass materializes for a default value of
a given resolved type: the conversion of lines 30–35 of the source, as a
total function into `Option` (it is `some` exactly when the unwrapped
conversion succeeds and the type is one of the three literal kinds). -/
def literal_operand : Type' → Value → Option Operand
  | .string, v => v.try_string.map Operand.string_value
  | .number, v => v.try_number.map Operand.float_value
  | .boolean, v => v.try_boolean.map Operand.bool_value
  | _, _ => none

/-- The spec invariant on declarations that reach code generation: any
present default value is convertible to the declaration's resolved type
(so the final pass's unwraps cannot fire). -/
def decl_safe (d : Declaration) : Prop :=
  ∀ v, d.default_value = some v →
    ∃ t op, d.type' = some t ∧ literal_operand t v = some op

/-- The type discipline the earlier passes guarantee: every declaration
type is `String`, `Number`, `Boolean`, a `Function` type, or unresolved —
never `Any` or `Undefined`. -/
def allowed_decl_type : Option Type' → Bool
  | some .any => false
  | some .undefined => false
  | _ => true

/-- Keep-first deduplication with an explicit seen set; the recursion the
spec describes when it says duplicate entries are removed and the first
occurrence survives in place. -/
def dedup_spec_go : List Diagnostic → List Diagnostic → List Diagnostic
  | _, [] => []
  | seen, d :: rest =>
    if d ∈ seen then dedup_spec_go seen rest
    else d :: dedup_spec_go (d :: seen) rest

/-- Stated from the spec's words, for comparison with
`dedup_preserving_order`: remove duplicate entries (by structural
equality), keeping each distinct diagnostic once at the position of its
first occurrence. -/
def dedup_spec (l : List Diagnostic) : List Diagnostic :=
  dedup_spec_go [] l

/-- Embedding of `Line` (modelled from the spec: a unit of dialogue text
identified by a stable line id; the full runtime struct is not under
`src/`). -/
structure Line where
  id : String
  text : String
deriving DecidableEq, Repr

/-- Embedding of `OptionId` from `dialogue_option.rs`: a newtype over
`usize`, carried as `Nat`. -/
structure OptionId where
  val : Nat
deriving DecidableEq, Repr

/-- Embedding of `OptionId::construct_for_debugging`. -/
def OptionId.construct_for_debugging (value : Nat) : OptionId :=
  ⟨value⟩

/-- Embedding of `DialogueOption` from `dialogue_option.rs`. -/
structure DialogueOption where
  line : Line
  id : OptionId
  destination_node : String
  is_available : Bool
deriving DecidableEq, Repr

/-- Modelled from the spec: the data of one accumulated option before the
VM stamps an id on it — its line, destination node and computed
availability (the VM's option-accumulation code is not under `src/`). -/
structure PendingOption where
  line : Line
  destination_node : String
  is_available : Bool
deriving DecidableEq, Repr

/-- Modelled from the spec: the VM stamps ids on accumulated options
sequentially, each new option receiving the current count, starting from
`next_id`. -/
def deliver_options_from (next_id : Nat) :
    List PendingOption → List DialogueOption
  | [] => []
  | p :: rest =>
    { line := p.line, id := ⟨next_id⟩, destination_node := p.destination_node,
      is_available := p.is_available } :: deliver_options_from (next_id + 1) rest

/-- Modelled from the spec: producing one option set assigns ids
sequentially starting at 0 in emission order. -/
def deliver_options (pending : List PendingOption) : List DialogueOption :=
  deliver_options_from 0 pending

/-- Modelled from the spec: one VM session produces a sequence of option
sets, each delivered independently by `deliver_options`. -/
def session_option_batches (sets : List (List PendingOption)) :
    List (List DialogueOption) :=
  sets.map deliver_options

/-- Concrete declaration with a string default, for the C1 witness. -/
def declC1s : Declaration :=
  { name := "$greeting", type' := some .string,
    default_value := some (.string "hi"), description := "" }

/-- Concrete declaration with a numeric default, for the C1 witness. -/
def declC1n : Declaration :=
  { name := "$count", type' := some .number,
    default_value := some (.number 2), description := "" }

/-- Concrete compilation holding an empty program. -/
def compEmptyProgram : Compilation :=
  { program := some { initial_values := [] }, diagnostics := [], declarations := [] }

/-- Concrete state for the C1 witness. -/
def stC1 : CompilationIntermediate :=
  { known_variable_declarations := [declC1s, declC1n],
    derived_variable_declarations := [], tracking_nodes := [],
    diagnostics := [], result := some (.ok compEmptyProgram) }

/-- Concrete declaration with a resolved type but no default value, the
failing input for C2. -/
def declC2 : Declaration :=
  { name := "$x", type' := some .number, default_value := none, description := "" }

/-- Concrete state for the C2 failing input. -/
def stC2 : CompilationIntermediate :=
  { known_variable_declarations := [declC2],
    derived_variable_declarations := [], tracking_nodes := [],
    diagnostics := [], result := some (.ok compEmptyProgram) }

/-- The null-default-value message the pass generates for `declC2`. -/
def msgC2 : String :=
  "Variable declaration $x (type Number) has a null default value. This is not allowed."

/-- Concrete diagnostic absent from the intermediate state's accumulated
list, for the C3 counterexample. -/
def diagC3 : Diagnostic := Diagnostic.from_message "loose diagnostic"

/-- Concrete state for the C3 counterexample: the compilation carries a
diagnostic the intermediate state does not. -/
def stC3 : CompilationIntermediate :=
  { known_variable_declarations := [], derived_variable_declarations := [],
    tracking_nodes := [], diagnostics := [],
    result := some (.ok { program := none, diagnostics := [diagC3], declarations := [] }) }

/-- Concrete diagnostic present in both lists, for the C3 witness. -/
def diagC3w : Diagnostic := Diagnostic.from_message "duplicated finding"

/-- Concrete compilation for the C3 witness, with a duplicated
diagnostic. -/
def compC3w : Compilation :=
  { program := none, diagnostics := [diagC3w, diagC3w], declarations := [] }

/-- Concrete state for the C3 witness. -/
def stC3w : CompilationIntermediate :=
  { known_variable_declarations := [], derived_variable_declarations := [],
    tracking_nodes := [], diagnostics := [diagC3w],
    result := some (.ok compC3w) }

/-- Concrete state for the C5 witness, flagging two nodes for tracking. -/
def stC5 : CompilationIntermediate :=
  { known_variable_declarations := [], derived_variable_declarations := [],
    tracking_nodes := ["NodeA", "NodeB"], diagnostics := [], result := none }

/-- Concrete declaration for the C7 counterexample and witness. -/
def declC7 : Declaration :=
  { name := "$k", type' := some .boolean,
    default_value := some (.boolean true), description := "" }

/-- Concrete state for the C7 counterexample: one known declaration, no
derived declarations. -/
def stC7 : CompilationIntermediate :=
  { known_variable_declarations := [declC7],
    derived_variable_declarations := [], tracking_nodes := [],
    diagnostics := [], result := some (.ok compEmptyProgram) }

/-- Concrete state for the C7 witness: one derived declaration. -/
def stC7w : CompilationIntermediate :=
  { known_variable_declarations := [],
    derived_variable_declarations := [declC7], tracking_nodes := [],
    diagnostics := [], result := some (.ok compEmptyProgram) }

/-- Concrete declaration whose resolved type is `Any`, hitting the
`panic!` arm; input for the C8 witness. -/
def declC8a : Declaration :=
  { name := "$bugged", type' := some .any,
    default_value := some (.boolean true), description := "" }

/-- Concrete state reaching the unsupported-type panic, for the C8
witness. -/
def stC8a : CompilationIntermediate :=
  { known_variable_declarations := [declC8a],
    derived_variable_declarations := [], tracking_nodes := [],
    diagnostics := [], result := some (.ok compEmptyProgram) }

/-- Concrete state whose declaration types all respect the earlier-pass
discipline, for the C8 witness. -/
def stC8b : CompilationIntermediate :=
  { known_variable_declarations := [declC1s, declC2],
    derived_variable_declarations := [], tracking_nodes := [],
    diagnostics := [], result := some (.ok compEmptyProgram) }

/-- Concrete pending option, first option set of the C9 counterexample. -/
def pendingA : PendingOption :=
  { line := { id := "line:a", text := "Option A" },
    destination_node := "NodeA", is_available := true }

/-- Concrete pending option, second option set of the C9 counterexample. -/
def pendingB : PendingOption :=
  { line := { id := "line:b", text := "Option B" },
    destination_node := "NodeB", is_available := true }

/-- Concrete compilation error payload for the C10 witness. -/
def stC10 : CompilationIntermediate :=
  { known_variable_declarations := [declC1n],
    derived_variable_declarations := [], tracking_nodes := [],
    diagnostics := [Diagnostic.from_message "syntax error"],
    result := some (.error { diagnostics := [Diagnostic.from_message "syntax error"] }) }

end YarnSpinner

namespace YarnSpinner

/-- Claim C4: `is_sub_type_of` satisfies: every type (including `Undefined`)
is a subtype of `Any`; for every parent other than `Any`, `Undefined` as a
subtype yields `false`; for a non-`Undefined` subtype and a parent that is
neither `Any` nor `Undefined`, the answer is exactly structural equality;
and a non-`Any` query against an `Undefined` parent is never answered with
`true` (it is the panic path, embedded as `none`). -/
theorem subtype_relation_characterization :
    (∀ t : Type', is_sub_type_of t Type'.any = some true)
    ∧ (∀ p : Type', p ≠ Type'.any → is_sub_type_of Type'.undefined p = some false)
    ∧ (∀ t p : Type', t ≠ Type'.undefined → p ≠ Type'.any → p ≠ Type'.undefined →
        is_sub_type_of t p = some (decide (t = p)))
    ∧ (∀ t : Type', t ≠ Type'.undefined → is_sub_type_of t Type'.undefined = none) := by
  refine ⟨?_, ?_, ?_, ?_⟩
  · intro t; cases t <;> rfl
  · intro p hp; cases p <;> first | exact absurd rfl hp | rfl
  · intro t p ht hp hpu
    cases t <;> cases p <;>
      first
        | exact absurd rfl ht
        | exact absurd rfl hp
        | exact absurd rfl hpu
        | rfl
  · intro t ht; cases t <;> first | exact absurd rfl ht | rfl

/-- Witness for C4 at concrete types. -/
theorem subtype_relation_characterization_witness :
    is_sub_type_of Type'.undefined Type'.any = some true
    ∧ is_sub_type_of Type'.undefined Type'.number = some false
    ∧ is_sub_type_of Type'.string Type'.number = some (decide (Type'.string = Type'.number))
    ∧ is_sub_type_of Type'.boolean Type'.undefined = none :=
  ⟨subtype_relation_characterization.1 Type'.undefined,
   subtype_relation_characterization.2.1 Type'.number (by decide),
   subtype_relation_characterization.2.2.1 Type'.string Type'.number
     (by decide) (by decide) (by decide),
   subtype_relation_characterization.2.2.2 Type'.boolean (by decide)⟩

/-- Looking up a key right after inserting it yields the inserted
operand. -/
theorem map_lookup_insert_self (k : String) (v : Operand) (m : List (String × Operand)) :
    map_lookup k (map_insert k v m) = some v := by
  simp [map_lookup, map_insert]

/-- Entries erased by the insert's filter never match a different key, so
lookups of other keys see through the filter. -/
theorem map_lookup_filter_of_ne (k k' : String) (h : k' ≠ k) (m : List (String × Operand)) :
    map_lookup k' (m.filter (fun p => decide (p.1 ≠ k))) = map_lookup k' m := by
  induction m with
  | nil => rfl
  | cons q rest ih =>
    rw [List.filter_cons]
    by_cases hq : q.1 = k
    · rw [if_neg (by simp [hq])]
      rw [ih, map_lookup]
      rw [if_neg (fun hh : q.1 = k' => h (hh ▸ hq))]
    · rw [if_pos (by simp [hq])]
      rw [map_lookup, map_lookup]
      by_cases hk' : q.1 = k'
      · rw [if_pos hk', if_pos hk']
      · rw [if_neg hk', if_neg hk', ih]

/-- Inserting under one key leaves lookups of every other key
unchanged. -/
theorem map_lookup_insert_ne (k k' : String) (v : Operand)
    (m : List (String × Operand)) (h : k' ≠ k) :
    map_lookup k' (map_insert k v m) = map_lookup k' m := by
  rw [map_insert, map_lookup]
  rw [if_neg (fun hh => h hh.symm)]
  exact map_lookup_filter_of_ne k k' h m

/-- Claim C10: when the stored compilation result is an `Err`, the final
pass returns the intermediate state entirely unchanged. -/
theorem error_result_returns_state_unchanged
    (state : CompilationIntermediate) (e : CompilationError)
    (h : state.result = some (Except.error e)) :
    add_initial_value_registrations state = .ok state := by
  simp [add_initial_value_registrations, h]

/-- Witness for C10 at a concrete errored state. -/
theorem error_result_returns_state_unchanged_witness :
    add_initial_value_registrations stC10 = .ok stC10 :=
  error_result_returns_state_unchanged stC10
    { diagnostics := [Diagnostic.from_message "syntax error"] } rfl

/-- Claim C2, the code's actual behaviour at the failing input: the loop
does push the null-default-value `Error` diagnostic naming `$x`, but the
deduplication step (whose membership pool is built from
`state.diagnostics`, which cannot contain the freshly pushed entry)
filters it out again, so the finished compilation carries no diagnostics
at all while its program survives intact. -/
theorem null_default_diagnostic_swallowed :
    register_all (filtered_declarations stC2) compEmptyProgram
        = .ok { compEmptyProgram with diagnostics := [Diagnostic.from_message msgC2] }
    ∧ (Diagnostic.from_message msgC2).severity = .error
    ∧ (Diagnostic.from_message msgC2).message
        = "Variable declaration " ++ declC2.name
          ++ " (type Number) has a null default value. This is not allowed."
    ∧ final_diagnostics (add_initial_value_registrations stC2) = some []
    ∧ (final_compilation (add_initial_value_registrations stC2)).map
        (fun c => c.program.isSome) = some true := by
  refine ⟨rfl, rfl, by decide, rfl, rfl⟩

/-- Every diagnostic kept by the deduplication step was in its pool. -/
theorem dedup_subset :
    ∀ (l pool : List Diagnostic) (x : Diagnostic),
      x ∈ dedup_preserving_order pool l → x ∈ pool := by
  intro l
  induction l with
  | nil =>
    intro pool x hx
    simp [dedup_preserving_order] at hx
  | cons d rest ih =>
    intro pool x hx
    simp only [dedup_preserving_order] at hx
    by_cases hd : d ∈ pool
    · rw [if_pos hd] at hx
      rcases List.mem_cons.mp hx with h1 | h1
      · exact h1 ▸ hd
      · exact (List.mem_filter.mp (ih _ x h1)).1
    · rw [if_neg hd] at hx
      exact ih _ x hx

/-- The deduplication step never emits the same diagnostic twice. -/
theorem dedup_nodup :
    ∀ (l pool : List Diagnostic), (dedup_preserving_order pool l).Nodup := by
  intro l
  induction l with
  | nil =>
    intro pool
    simp [dedup_preserving_order]
  | cons d rest ih =>
    intro pool
    simp only [dedup_preserving_order]
    by_cases hd : d ∈ pool
    · rw [if_pos hd]
      refine List.nodup_cons.mpr ⟨?_, ih _⟩
      intro hmem
      have := (List.mem_filter.mp (dedup_subset rest _ d hmem)).2
      simp at this
    · rw [if_neg hd]
      exact ih _

/-- A duplicate-free list all of whose entries are in the pool passes the
deduplication step unchanged. -/
theorem dedup_fixed :
    ∀ (m pool : List Diagnostic), (∀ x ∈ m, x ∈ pool) → m.Nodup →
      dedup_preserving_order pool m = m := by
  intro m
  induction m with
  | nil =>
    intro pool _ _
    rfl
  | cons d rest ih =>
    intro pool hsub hnd
    simp only [dedup_preserving_order]
    rw [if_pos (hsub d (List.mem_cons_self d rest))]
    congr 1
    refine ih _ ?_ (List.nodup_cons.mp hnd).2
    intro x hx
    refine List.mem_filter.mpr ⟨hsub x (List.mem_cons_of_mem d hx), ?_⟩
    simp only [decide_eq_true_eq]
    intro hxd
    exact (List.nodup_cons.mp hnd).1 (hxd ▸ hx)

/-- Claim C6: the deduplication step of the final pass is idempotent —
run a second time with the same pool over its own output, it returns that
output unchanged, order preserved. -/
theorem dedup_idempotent (pool l : List Diagnostic) :
    dedup_preserving_order pool (dedup_preserving_order pool l)
      = dedup_preserving_order pool l :=
  dedup_fixed (dedup_preserving_order pool l) pool
    (fun x hx => dedup_subset l pool x hx) (dedup_nodup l pool)

/-- Filtering occurrences of a diagnostic that is already seen does not
change keep-first deduplication. -/
theorem dedup_spec_go_filter_mem (d : Diagnostic) :
    ∀ (m seen : List Diagnostic), d ∈ seen →
      dedup_spec_go seen (m.filter (fun x => decide (x ≠ d))) = dedup_spec_go seen m := by
  intro m
  induction m with
  | nil =>
    intro seen _
    rfl
  | cons x rest ih =>
    intro seen hd
    rw [List.filter_cons]
    by_cases hxd : x = d
    · rw [if_neg (by simp [hxd])]
      rw [ih seen hd]
      simp only [dedup_spec_go]
      rw [if_pos (hxd ▸ hd)]
    · rw [if_pos (by simp [hxd])]
      simp only [dedup_spec_go]
      by_cases hxs : x ∈ seen
      · rw [if_pos hxs, if_pos hxs]
        exact ih seen hd
      · rw [if_neg hxs, if_neg hxs]
        rw [ih (x :: seen) (List.mem_cons_of_mem x hd)]

/-- Membership in a pool purged of one diagnostic, as a boolean. -/
theorem mem_filter_ne_decide (pool : List Diagnostic) (d x : Diagnostic) :
    decide (x ∈ pool.filter (fun y => decide (y ≠ d)))
      = (decide (x ≠ d) && decide (x ∈ pool)) := by
  by_cases hx : x ∈ pool <;> by_cases hxd : x = d <;>
    simp [List.mem_filter, hx, hxd]

/-- The implemented deduplication equals keep-first deduplication of the
pool-restricted list: walking the diagnostics with a shrinking membership
pool keeps exactly the first occurrence of each diagnostic that is in the
pool, in order. -/
theorem dedup_eq_spec_filter :
    ∀ (l pool seen : List Diagnostic), (∀ x ∈ seen, x ∉ pool) →
      dedup_preserving_order pool l
        = dedup_spec_go seen (l.filter (fun x => decide (x ∈ pool))) := by
  intro l
  induction l with
  | nil =>
    intro pool seen _
    rfl
  | cons d rest ih =>
    intro pool seen hdisj
    simp only [dedup_preserving_order]
    rw [List.filter_cons]
    by_cases hd : d ∈ pool
    · rw [if_pos hd, if_pos (by simpa using hd)]
      have hdseen : d ∉ seen := fun hs => hdisj d hs hd
      simp only [dedup_spec_go]
      rw [if_neg hdseen]
      congr 1
      have hskip := dedup_spec_go_filter_mem d
        (rest.filter (fun x => decide (x ∈ pool))) (d :: seen) (List.mem_cons_self d seen)
      rw [← hskip]
      rw [List.filter_filter]
      have hfc : (rest.filter (fun x => decide (x ∈ pool.filter (fun y => decide (y ≠ d)))))
          = (rest.filter (fun a => decide (a ≠ d) && decide (a ∈ pool))) := by
        refine List.filter_congr ?_
        intro x _
        exact mem_filter_ne_decide pool d x
      rw [← hfc]
      refine ih _ (d :: seen) ?_
      intro x hx hmem
      rcases List.mem_cons.mp hx with h1 | h1
      · have := (List.mem_filter.mp hmem).2
        simp [h1] at this
      · exact hdisj x h1 (List.mem_filter.mp hmem).1
    · rw [if_neg hd, if_neg (by simpa using hd)]
      exact ih pool seen hdisj

/-- Counterexample to C3 as stated: the deduplication pool is built from
`state.diagnostics`, not from the pre-deduplication compilation
diagnostics, so a diagnostic present only on the compilation side is
dropped entirely instead of surviving as its first occurrence. -/
theorem dedup_drops_unpooled_diagnostic :
    final_diagnostics (add_initial_value_registrations stC3) = some []
    ∧ register_all (filtered_declarations stC3)
        { program := none, diagnostics := [diagC3], declarations := [] }
        = .ok { program := none, diagnostics := [diagC3], declarations := [] }
    ∧ dedup_spec [diagC3] = [diagC3]
    ∧ ([] : List Diagnostic) ≠ [diagC3] := by
  refine ⟨rfl, rfl, rfl, by decide⟩

/-- Claim C3 as amended: after the final pass, the compilation's
diagnostic list equals the pre-deduplication compilation diagnostic list
restricted to diagnostics also present in the intermediate state's
accumulated list, with duplicate entries removed — every such diagnostic
appears exactly once, at the position of its first occurrence, in
first-seen order. -/
theorem final_diagnostics_are_pool_restricted_dedup
    (state : CompilationIntermediate) (c comp' : Compilation)
    (hres : state.result = some (Except.ok c))
    (hreg : register_all (filtered_declarations state) c = .ok comp') :
    final_diagnostics (add_initial_value_registrations state)
      = some (dedup_spec (comp'.diagnostics.filter
          (fun d => decide (d ∈ state.diagnostics)))) := by
  simp only [add_initial_value_registrations, hres, hreg, final_diagnostics,
    final_compilation, Option.map]
  rw [dedup_spec]
  rw [dedup_eq_spec_filter comp'.diagnostics state.diagnostics [] (by simp)]

/-- Witness for the amended C3 at a concrete state with a duplicated,
pooled diagnostic. -/
theorem final_diagnostics_are_pool_restricted_dedup_witness :
    final_diagnostics (add_initial_value_registrations stC3w)
      = some (dedup_spec (compC3w.diagnostics.filter
          (fun d => decide (d ∈ stC3w.diagnostics)))) :=
  final_diagnostics_are_pool_restricted_dedup stC3w compC3w compC3w rfl rfl

/-- A materialized literal operand forces the type to be one of the three
literal kinds. -/
theorem literal_operand_basic (t : Type') (v : Value) (op : Operand)
    (h : literal_operand t v = some op) :
    t = .string ∨ t = .number ∨ t = .boolean := by
  cases t with
  | string => exact Or.inl rfl
  | number => exact Or.inr (Or.inl rfl)
  | boolean => exact Or.inr (Or.inr rfl)
  | function s => simp [literal_operand] at h
  | any => simp [literal_operand] at h
  | undefined => simp [literal_operand] at h

/-- When the program is present and the default value converts, the loop
body registers exactly the converted literal under the declaration's
name. -/
theorem register_target (d : Declaration) (c : Compilation) (p : Program)
    (t : Type') (v : Value) (op : Operand)
    (hp : c.program = some p) (ht : d.type' = some t)
    (hv : d.default_value = some v) (hop : literal_operand t v = some op) :
    register_initial_value d c
      = .ok { c with program := some (Program.mk (map_insert d.name op p.initial_values)) } := by
  rcases literal_operand_basic t v op hop with h | h | h <;> subst h
  · cases v with
    | string s =>
      simp only [literal_operand, Value.try_string, Option.map, Option.some.injEq] at hop
      subst hop
      simp [register_initial_value, hv, hp, ht, Value.try_string]
    | number n => simp [literal_operand, Value.try_string] at hop
    | boolean b => simp [literal_operand, Value.try_string] at hop
  · cases v with
    | string s => simp [literal_operand, Value.try_number] at hop
    | number n =>
      simp only [literal_operand, Value.try_number, Option.map, Option.some.injEq] at hop
      subst hop
      simp [register_initial_value, hv, hp, ht, Value.try_number]
    | boolean b => simp [literal_operand, Value.try_number] at hop
  · cases v with
    | string s => simp [literal_operand, Value.try_boolean] at hop
    | number n => simp [literal_operand, Value.try_boolean] at hop
    | boolean b =>
      simp only [literal_operand, Value.try_boolean, Option.map, Option.some.injEq] at hop
      subst hop
      simp [register_initial_value, hv, hp, ht, Value.try_boolean]

/-- A successful loop-body step either leaves the program untouched or
replaces it with the same map extended under the declaration's name. -/
theorem register_ok_cases (d : Declaration) (c c' : Compilation)
    (h : register_initial_value d c = .ok c') :
    c'.program = c.program
    ∨ ∃ p op, c.program = some p
        ∧ c'.program = some (Program.mk (map_insert d.name op p.initial_values)) := by
  cases hv : d.default_value with
  | none =>
    simp only [register_initial_value, hv, Except.ok.injEq] at h
    exact Or.inl (by rw [← h])
  | some v =>
    cases hp : c.program with
    | none =>
      simp only [register_initial_value, hv, hp, Except.ok.injEq] at h
      exact Or.inl (by rw [← h]; exact hp)
    | some p =>
      cases ht : d.type' with
      | none => simp [register_initial_value, hv, hp, ht] at h
      | some t =>
        cases t with
        | string =>
          cases hs : v.try_string with
          | none => simp [register_initial_value, hv, hp, ht, hs] at h
          | some s =>
            simp only [register_initial_value, hv, hp, ht, hs, Except.ok.injEq] at h
            exact Or.inr ⟨p, .string_value s, rfl, by rw [← h]⟩
        | number =>
          cases hs : v.try_number with
          | none => simp [register_initial_value, hv, hp, ht, hs] at h
          | some n =>
            simp only [register_initial_value, hv, hp, ht, hs, Except.ok.injEq] at h
            exact Or.inr ⟨p, .float_value n, rfl, by rw [← h]⟩
        | boolean =>
          cases hs : v.try_boolean with
          | none => simp [register_initial_value, hv, hp, ht, hs] at h
          | some b =>
            simp only [register_initial_value, hv, hp, ht, hs, Except.ok.injEq] at h
            exact Or.inr ⟨p, .bool_value b, rfl, by rw [← h]⟩
        | function s => simp [register_initial_value, hv, hp, ht] at h
        | any => simp [register_initial_value, hv, hp, ht] at h
        | undefined => simp [register_initial_value, hv, hp, ht] at h

/-- A successful loop-body step keeps the program present. -/
theorem register_preserves_some (d : Declaration) (c c' : Compilation) (p : Program)
    (h : register_initial_value d c = .ok c') (hp : c.program = some p) :
    ∃ p', c'.program = some p' := by
  rcases register_ok_cases d c c' h with hsame | ⟨p0, op, _, hins⟩
  · exact ⟨p, hsame.trans hp⟩
  · exact ⟨_, hins⟩

/-- The loop body succeeds on every declaration satisfying the spec's
convertibility invariant. -/
theorem register_safe_ok (d : Declaration) (c : Compilation)
    (hsafe : decl_safe d) :
    ∃ c', register_initial_value d c = .ok c' := by
  cases hv : d.default_value with
  | none =>
    refine ⟨{ c with diagnostics := c.diagnostics ++
        [Diagnostic.from_message
          ("Variable declaration " ++ d.name ++ " (type " ++
           format_type d.type' ++
           ") has a null default value. This is not allowed.")] }, ?_⟩
    simp [register_initial_value, hv]
  | some v =>
    cases hp : c.program with
    | none => exact ⟨c, by simp [register_initial_value, hv, hp]⟩
    | some p =>
      obtain ⟨t, op, ht, hop⟩ := hsafe v hv
      exact ⟨_, register_target d c p t v op hp ht hv hop⟩

/-- Over safe declarations the whole loop succeeds, keeps the program
present, and leaves the registered value of every name not named by the
list unchanged. -/
theorem register_all_ok_and_preserve :
    ∀ (l : List Declaration) (c : Compilation) (p : Program),
      c.program = some p → (∀ d ∈ l, decl_safe d) →
      ∃ c' p', register_all l c = .ok c' ∧ c'.program = some p'
        ∧ ∀ k, (∀ d ∈ l, d.name ≠ k) →
            map_lookup k p'.initial_values = map_lookup k p.initial_values := by
  intro l
  induction l with
  | nil =>
    intro c p hp _
    exact ⟨c, p, rfl, hp, fun k _ => rfl⟩
  | cons d rest ih =>
    intro c p hp hsafe
    obtain ⟨c1, hc1⟩ := register_safe_ok d c (hsafe d (List.mem_cons_self d rest))
    rcases register_ok_cases d c c1 hc1 with hsame | ⟨p0, op, hp0, hins⟩
    · obtain ⟨c', p', hall, hp', hpres⟩ :=
        ih c1 p (hsame.trans hp) (fun d2 hd2 => hsafe d2 (List.mem_cons_of_mem d hd2))
      refine ⟨c', p', by simp [register_all, hc1, hall], hp', ?_⟩
      intro k hk
      exact hpres k (fun d2 hd2 => hk d2 (List.mem_cons_of_mem d hd2))
    · have hpp : p0 = p := Option.some.inj (hp0.symm.trans hp)
      subst hpp
      obtain ⟨c', p', hall, hp', hpres⟩ :=
        ih c1 _ hins (fun d2 hd2 => hsafe d2 (List.mem_cons_of_mem d hd2))
      refine ⟨c', p', by simp [register_all, hc1, hall], hp', ?_⟩
      intro k hk
      rw [hpres k (fun d2 hd2 => hk d2 (List.mem_cons_of_mem d hd2))]
      exact map_lookup_insert_ne d.name k op p0.initial_values
        (fun hh => hk d (List.mem_cons_self d rest) hh.symm)

/-- Over safe, uniquely named declarations, the loop registers the target
declaration's converted default and no later step overwrites it. -/
theorem register_all_target :
    ∀ (l : List Declaration) (c : Compilation) (p : Program)
      (decl : Declaration) (t : Type') (v : Value) (op : Operand),
      c.program = some p → (∀ d ∈ l, decl_safe d) →
      (l.map (fun d => d.name)).Nodup →
      decl ∈ l → decl.type' = some t → decl.default_value = some v →
      literal_operand t v = some op →
      ∃ c' p', register_all l c = .ok c' ∧ c'.program = some p'
        ∧ map_lookup decl.name p'.initial_values = some op := by
  intro l
  induction l with
  | nil =>
    intro c p decl t v op _ _ _ hmem
    simp at hmem
  | cons d rest ih =>
    intro c p decl t v op hp hsafe hnd hmem ht hv hop
    rcases List.mem_cons.mp hmem with heq | hmem'
    · subst heq
      have hreg := register_target decl c p t v op hp ht hv hop
      obtain ⟨c', p', hall, hp', hpres⟩ :=
        register_all_ok_and_preserve rest
          { c with program := some (Program.mk (map_insert decl.name op p.initial_values)) }
          (Program.mk (map_insert decl.name op p.initial_values))
          rfl (fun d2 hd2 => hsafe d2 (List.mem_cons_of_mem decl hd2))
      refine ⟨c', p', by simp [register_all, hreg, hall], hp', ?_⟩
      have hnames : ∀ d2 ∈ rest, d2.name ≠ decl.name := by
        intro d2 hd2 hname
        have hmemn : decl.name ∈ rest.map (fun d3 => d3.name) :=
          hname ▸ List.mem_map_of_mem (fun d3 => d3.name) hd2
        simp only [List.map_cons, List.nodup_cons] at hnd
        exact hnd.1 hmemn
      rw [hpres decl.name hnames]
      exact map_lookup_insert_self decl.name op p.initial_values
    · obtain ⟨c1, hc1⟩ := register_safe_ok d c (hsafe d (List.mem_cons_self d rest))
      obtain ⟨p1, hp1⟩ := register_preserves_some d c c1 p hc1 hp
      obtain ⟨c', p', hall, hp', hlook⟩ :=
        ih c1 p1 decl t v op hp1
          (fun d2 hd2 => hsafe d2 (List.mem_cons_of_mem d hd2))
          (by simp only [List.map_cons, List.nodup_cons] at hnd; exact hnd.2)
          hmem' ht hv hop
      exact ⟨c', p', by simp [register_all, hc1, hall], hp', hlook⟩

/-- Claim C1: for every known declaration whose resolved type is one of
the three literal kinds and whose default value converts to it, a
successful run of the final pass on an `Ok` result holding a program
registers under the declaration's name the literal operand of the
matching kind carrying the default value.  The side conditions are the
spec's own invariants: declaration names are unique and every default
value that reaches code generation is convertible to its declared
type. -/
theorem initial_value_registered_for_declared_default
    (state : CompilationIntermediate) (c : Compilation)
    (decl : Declaration) (t : Type') (v : Value) (op : Operand)
    (hres : state.result = some (Except.ok c))
    (hprog : c.program.isSome = true)
    (hmem : decl ∈ state.known_variable_declarations)
    (htype : decl.type' = some t)
    (hdef : decl.default_value = some v)
    (hop : literal_operand t v = some op)
    (hsafe : ∀ d ∈ state.known_variable_declarations, decl_safe d)
    (hnodup : (state.known_variable_declarations.map (fun d => d.name)).Nodup) :
    final_initial_value decl.name (add_initial_value_registrations state) = some op := by
  obtain ⟨p, hp⟩ := Option.isSome_iff_exists.mp hprog
  have hnotfn : (decl.type' matches some (.function _)) = false := by
    rw [htype]
    rcases literal_operand_basic t v op hop with h | h | h <;> subst h <;> rfl
  have hmemf : decl ∈ filtered_declarations state := by
    refine List.mem_filter.mpr ⟨List.mem_filter.mpr ⟨hmem, ?_⟩, ?_⟩
    · simpa using hnotfn
    · rw [htype]
      rfl
  have hsafef : ∀ d ∈ filtered_declarations state, decl_safe d := fun d hd =>
    hsafe d (List.mem_filter.mp (List.mem_filter.mp hd).1).1
  have hndf : ((filtered_declarations state).map (fun d => d.name)).Nodup :=
    List.Nodup.sublist
      (List.Sublist.map (fun d : Declaration => d.name)
        ((List.filter_sublist _).trans (List.filter_sublist _)))
      hnodup
  obtain ⟨c', p', hall, hp', hlook⟩ :=
    register_all_target (filtered_declarations state) c p decl t v op
      hp hsafef hndf hmemf htype hdef hop
  have hred : final_initial_value decl.name (add_initial_value_registrations state)
      = c'.program.bind (fun p2 => map_lookup decl.name p2.initial_values) := by
    simp [add_initial_value_registrations, hres, hall, final_initial_value,
      final_compilation]
  rw [hred, hp']
  simpa using hlook

/-- Witness for C1: a state declaring `$greeting : String = "hi"` and
`$count : Number = 2` registers `$count` as the float operand `2`. -/
theorem initial_value_registered_witness :
    final_initial_value "$count" (add_initial_value_registrations stC1)
      = some (Operand.float_value 2) :=
  initial_value_registered_for_declared_default stC1 compEmptyProgram declC1n
    Type'.number (Value.number 2) (Operand.float_value 2)
    rfl rfl (by decide) rfl rfl rfl
    (by
      intro d hd v hv
      simp only [stC1, List.mem_cons, List.mem_singleton] at hd
      rcases hd with h | h | h
      · subst h
        have hv' : Value.string "hi" = v := Option.some.inj hv
        subst hv'
        exact ⟨Type'.string, Operand.string_value "hi", rfl, rfl⟩
      · subst h
        have hv' : Value.number 2 = v := Option.some.inj hv
        subst hv'
        exact ⟨Type'.number, Operand.float_value 2, rfl, rfl⟩
      · simp at h)
    (by decide)

/-- A declaration with a present default whose resolved type is outside
the three literal kinds drives the loop body straight into the `panic!`
arm. -/
theorem register_unsupported (d : Declaration) (c : Compilation) (p : Program)
    (t : Type') (v : Value)
    (hp : c.program = some p) (ht : d.type' = some t) (hv : d.default_value = some v)
    (h1 : t ≠ .string) (h2 : t ≠ .number) (h3 : t ≠ .boolean) :
    register_initial_value d c = .error .unsupportedType := by
  cases t with
  | string => exact absurd rfl h1
  | number => exact absurd rfl h2
  | boolean => exact absurd rfl h3
  | function s => simp [register_initial_value, hv, hp, ht]
  | any => simp [register_initial_value, hv, hp, ht]
  | undefined => simp [register_initial_value, hv, hp, ht]

/-- A list containing such a declaration makes the whole loop abort,
program present throughout. -/
theorem register_all_aborts :
    ∀ (l : List Declaration) (c : Compilation) (p : Program),
      c.program = some p →
      (∃ decl ∈ l, ∃ t v, decl.type' = some t ∧ decl.default_value = some v
        ∧ t ≠ Type'.string ∧ t ≠ Type'.number ∧ t ≠ Type'.boolean) →
      ∃ e, register_all l c = .error e := by
  intro l
  induction l with
  | nil =>
    rintro c p hp ⟨decl, hmem, -⟩
    simp at hmem
  | cons d rest ih =>
    rintro c p hp ⟨decl, hmem, t, v, ht, hv, h1, h2, h3⟩
    rcases List.mem_cons.mp hmem with heq | hmem'
    · subst heq
      exact ⟨.unsupportedType,
        by simp [register_all, register_unsupported decl c p t v hp ht hv h1 h2 h3]⟩
    · cases hc1 : register_initial_value d c with
      | error e => exact ⟨e, by simp [register_all, hc1]⟩
      | ok c1 =>
        obtain ⟨p1, hp1⟩ := register_preserves_some d c c1 p hc1 hp
        obtain ⟨e, he⟩ := ih c1 p1 hp1 ⟨decl, hmem', t, v, ht, hv, h1, h2, h3⟩
        exact ⟨e, by simp [register_all, hc1, he]⟩

/-- A declaration respecting the earlier passes' type discipline that
passes both filters can never trigger the unsupported-type panic. -/
theorem register_not_unsupported (d : Declaration) (c : Compilation)
    (hall : allowed_decl_type d.type' = true)
    (hnotfn : (d.type' matches some (Type'.function _)) = false)
    (hres : d.type'.isSome = true) :
    register_initial_value d c ≠ .error .unsupportedType := by
  cases ht : d.type' with
  | none =>
    rw [ht] at hres
    simp at hres
  | some t =>
    cases t with
    | any =>
      rw [ht] at hall
      simp [allowed_decl_type] at hall
    | undefined =>
      rw [ht] at hall
      simp [allowed_decl_type] at hall
    | function s =>
      rw [ht] at hnotfn
      simp at hnotfn
    | string =>
      cases hv : d.default_value with
      | none => simp [register_initial_value, hv]
      | some v =>
        cases hp : c.program with
        | none => simp [register_initial_value, hv, hp]
        | some p =>
          cases hs : v.try_string with
          | none => simp [register_initial_value, hv, hp, ht, hs]
          | some s => simp [register_initial_value, hv, hp, ht, hs]
    | number =>
      cases hv : d.default_value with
      | none => simp [register_initial_value, hv]
      | some v =>
        cases hp : c.program with
        | none => simp [register_initial_value, hv, hp]
        | some p =>
          cases hs : v.try_number with
          | none => simp [register_initial_value, hv, hp, ht, hs]
          | some n => simp [register_initial_value, hv, hp, ht, hs]
    | boolean =>
      cases hv : d.default_value with
      | none => simp [register_initial_value, hv]
      | some v =>
        cases hp : c.program with
        | none => simp [register_initial_value, hv, hp]
        | some p =>
          cases hs : v.try_boolean with
          | none => simp [register_initial_value, hv, hp, ht, hs]
          | some b => simp [register_initial_value, hv, hp, ht, hs]

/-- Looping over declarations that all respect the type discipline and
the filters never produces the unsupported-type panic. -/
theorem register_all_not_unsupported :
    ∀ (l : List Declaration) (c : Compilation),
      (∀ d ∈ l, allowed_decl_type d.type' = true
        ∧ (d.type' matches some (Type'.function _)) = false
        ∧ d.type'.isSome = true) →
      register_all l c ≠ .error .unsupportedType := by
  intro l
  induction l with
  | nil =>
    intro c _ h
    simp [register_all] at h
  | cons d rest ih =>
    intro c hall
    obtain ⟨h1, h2, h3⟩ := hall d (List.mem_cons_self d rest)
    cases hc1 : register_initial_value d c with
    | error e =>
      intro hcontr
      rw [show register_all (d :: rest) c = .error e by simp [register_all, hc1]] at hcontr
      have he : e = .unsupportedType := Except.error.inj hcontr
      exact register_not_unsupported d c h1 h2 h3 (by rw [hc1, he])
    | ok c1 =>
      rw [show register_all (d :: rest) c = register_all rest c1 by
        simp [register_all, hc1]]
      exact ih c1 (fun d2 hd2 => hall d2 (List.mem_cons_of_mem d hd2))

/-- Claim C8: with a program present, reaching a declaration whose
default value exists but whose resolved, non-`Function` type is outside
`String, Number, Boolean` makes the final pass abort loudly (a panic,
embedded as an `error` result) rather than finish; and under the
precondition that every known declaration's type respects the earlier
passes' discipline (one of the three literal kinds, a `Function` type, or
unresolved), the unsupported-type panic is unreachable. -/
theorem unsupported_type_panics_and_unreachable :
    (∀ (state : CompilationIntermediate) (c : Compilation) (decl : Declaration)
        (t : Type') (v : Value),
      state.result = some (Except.ok c) → c.program.isSome = true →
      decl ∈ state.known_variable_declarations →
      decl.type' = some t → decl.default_value = some v →
      t ≠ Type'.string → t ≠ Type'.number → t ≠ Type'.boolean →
      (decl.type' matches some (Type'.function _)) = false →
      is_panic (add_initial_value_registrations state) = true)
    ∧ (∀ state : CompilationIntermediate,
        (∀ d ∈ state.known_variable_declarations, allowed_decl_type d.type' = true) →
        add_initial_value_registrations state ≠ Except.error PassPanic.unsupportedType) := by
  constructor
  · intro state c decl t v hres hprog hmem ht hv h1 h2 h3 hnotfn
    obtain ⟨p, hp⟩ := Option.isSome_iff_exists.mp hprog
    have hmemf : decl ∈ filtered_declarations state := by
      refine List.mem_filter.mpr ⟨List.mem_filter.mpr ⟨hmem, ?_⟩, ?_⟩
      · simpa using hnotfn
      · rw [ht]
        rfl
    obtain ⟨e, he⟩ := register_all_aborts (filtered_declarations state) c p hp
      ⟨decl, hmemf, t, v, ht, hv, h1, h2, h3⟩
    simp [add_initial_value_registrations, hres, he, is_panic]
  · intro state hall hcontr
    cases hres : state.result with
    | none => simp [add_initial_value_registrations, hres] at hcontr
    | some r =>
      cases r with
      | error err => simp [add_initial_value_registrations, hres] at hcontr
      | ok c =>
        cases hreg : register_all (filtered_declarations state) c with
        | ok comp' => simp [add_initial_value_registrations, hres, hreg] at hcontr
        | error e =>
          rw [show add_initial_value_registrations state = .error e by
            simp [add_initial_value_registrations, hres, hreg]] at hcontr
          have he : e = .unsupportedType := Except.error.inj hcontr
          refine register_all_not_unsupported (filtered_declarations state) c ?_
            (by rw [hreg, he])
          intro d2 hd2
          have hm2 := List.mem_filter.mp hd2
          have hm1 := List.mem_filter.mp hm2.1
          exact ⟨hall d2 hm1.1, by simpa using hm1.2, hm2.2⟩

/-- Witness for C8: a state whose declaration resolved to `Any` with a
default present panics, and a state respecting the discipline never hits
the unsupported-type panic. -/
theorem unsupported_type_panics_and_unreachable_witness :
    is_panic (add_initial_value_registrations stC8a) = true
    ∧ add_initial_value_registrations stC8b ≠ Except.error PassPanic.unsupportedType :=
  ⟨unsupported_type_panics_and_unreachable.1 stC8a compEmptyProgram declC8a
      Type'.any (Value.boolean true) rfl rfl (by decide) rfl rfl
      (by decide) (by decide) (by decide) rfl,
   unsupported_type_panics_and_unreachable.2 stC8b (by decide)⟩

/-- Claim C5: the tracking pass appends, to both the known and the
derived declaration lists, exactly one declaration per tracking node,
typed `Number` with default value `0`, named deterministically from the
node name (distinct nodes receiving distinct names), and carrying a
description recording its synthetic origin. -/
theorem tracking_declarations_appended (state : CompilationIntermediate) :
    ((add_tracking_declarations state).known_variable_declarations
        = state.known_variable_declarations
          ++ state.tracking_nodes.map tracking_declaration)
    ∧ ((add_tracking_declarations state).derived_variable_declarations
        = state.derived_variable_declarations
          ++ state.tracking_nodes.map tracking_declaration)
    ∧ (∀ node : String,
        (tracking_declaration node).type' = some Type'.number
        ∧ (tracking_declaration node).default_value = some (Value.number 0)
        ∧ (tracking_declaration node).name
            = generate_unique_visited_variable_for_node node
        ∧ (tracking_declaration node).description
            = "The generated variable for tracking visits of node " ++ node)
    ∧ (∀ a b : String,
        (tracking_declaration a).name = (tracking_declaration b).name → a = b) := by
  refine ⟨rfl, rfl, fun node => ⟨rfl, rfl, rfl, rfl⟩, ?_⟩
  intro a b hname
  have hname' : generate_unique_visited_variable_for_node a
      = generate_unique_visited_variable_for_node b := hname
  have hdata := congrArg String.data hname'
  rw [generate_unique_visited_variable_for_node,
    generate_unique_visited_variable_for_node,
    String.data_append, String.data_append] at hdata
  exact String.ext (List.append_cancel_left hdata)

/-- Witness for C5 at a state tracking two nodes. -/
theorem tracking_declarations_appended_witness :
    (add_tracking_declarations stC5).known_variable_declarations
      = [tracking_declaration "NodeA", tracking_declaration "NodeB"]
    ∧ ("NodeA" : String) = "NodeA" :=
  ⟨(tracking_declarations_appended stC5).1,
   (tracking_declarations_appended stC5).2.2.2 "NodeA" "NodeA" rfl⟩

/-- Each delivery stamps ids sequentially from its starting counter, in
emission order. -/
theorem deliver_options_from_ids (pending : List PendingOption) :
    ∀ n : Nat, (deliver_options_from n pending).map (fun o => o.id)
      = (List.range' n pending.length).map OptionId.mk := by
  induction pending with
  | nil =>
    intro n
    rfl
  | cons p rest ih =>
    intro n
    simp only [deliver_options_from, List.map_cons, List.length_cons]
    rw [List.range'_succ]
    simp only [List.map_cons]
    rw [ih (n + 1)]

/-- Claim C9 as amended: within every delivered option batch the ids are
assigned sequentially starting at 0 in emission order and are therefore
pairwise distinct; across a session, every option set restarts at 0, so
ids recur across sets and are only meaningful within their own set. -/
theorem option_ids_sequential_per_batch :
    (∀ pending : List PendingOption,
      (deliver_options pending).map (fun o => o.id)
        = (List.range pending.length).map OptionId.mk)
    ∧ (∀ pending : List PendingOption,
        ((deliver_options pending).map (fun o => o.id)).Nodup)
    ∧ (∀ sets : List (List PendingOption),
        (session_option_batches sets).map (fun batch => batch.map (fun o => o.id))
          = sets.map (fun s => (List.range s.length).map OptionId.mk)) := by
  have hmain : ∀ pending : List PendingOption,
      (deliver_options pending).map (fun o => o.id)
        = (List.range pending.length).map OptionId.mk := by
    intro pending
    rw [deliver_options, List.range_eq_range']
    exact deliver_options_from_ids pending 0
  refine ⟨hmain, ?_, ?_⟩
  · intro pending
    rw [hmain]
    refine List.Nodup.map ?_ (List.nodup_range pending.length)
    intro a b hab
    exact congrArg OptionId.val hab
  · intro sets
    rw [session_option_batches, List.map_map]
    exact List.map_congr_left (fun s _ => hmain s)

/-- Counterexample to C9 as stated: the id value 0 is delivered in each
of two distinct option sets of one session, so ids are reused across
sets. -/
theorem option_id_reused_across_sets :
    (session_option_batches [[pendingA], [pendingB]]).map
        (fun batch => batch.map (fun o => o.id))
      = [[OptionId.mk 0], [OptionId.mk 0]]
    ∧ pendingA ≠ pendingB :=
  ⟨rfl, by decide⟩

/-- Counterexample to C7 as stated: the pass assigns `declarations` from
the derived set alone, so with one known and no derived declarations the
attached list is empty rather than the derived+known union. -/
theorem declarations_not_union_counterexample :
    final_declarations (add_initial_value_registrations stC7) = some []
    ∧ stC7.derived_variable_declarations ++ stC7.known_variable_declarations = [declC7]
    ∧ stC7.known_variable_declarations ++ stC7.derived_variable_declarations = [declC7]
    ∧ ([] : List Declaration) ≠ [declC7] := by
  refine ⟨rfl, rfl, rfl, by decide⟩

/-- Claim C7 as amended: after a successful final pass, the attached
`declarations` list equals exactly the derived declaration set of the
intermediate state. -/
theorem declarations_assigned_from_derived
    (state : CompilationIntermediate) (c : Compilation)
    (hres : state.result = some (Except.ok c))
    (hok : is_panic (add_initial_value_registrations state) = false) :
    final_declarations (add_initial_value_registrations state)
      = some state.derived_variable_declarations := by
  cases hreg : register_all (filtered_declarations state) c with
  | error e =>
    rw [show add_initial_value_registrations state = .error e by
      simp [add_initial_value_registrations, hres, hreg]] at hok
    simp [is_panic] at hok
  | ok comp' =>
    simp [add_initial_value_registrations, hres, hreg,
      final_declarations, final_compilation]

/-- Witness for the amended C7 at a concrete state with one derived
declaration. -/
theorem declarations_assigned_from_derived_witness :
    final_declarations (add_initial_value_registrations stC7w) = some [declC7] :=
  declarations_assigned_from_derived stC7w compEmptyProgram rfl rfl

end YarnSpinner
